import Mathlib

/-!
Verification development for the iDanmu_Speed batch downloader
(src/danmu_batch_downloader.py).  Python functions are shallowly embedded
as Lean definitions: machine integers are Int/Nat (Python integers are
unbounded, so no wraparound modelling is needed), the monotonic clock is
modelled as a rational number of seconds, randomness (retry jitter) is an
explicit oracle argument, and network I/O is an explicit per-attempt
outcome oracle.
-/

/-! ## Retry/backoff policy (_compute_retry_delay_ms and constants) -/

/-- MAX_RETRY_DELAY_MS from the source. -/
def maxRetryDelayMs : Int := 120000

/-- FINAL_RATE_LIMIT_COOLDOWN_MS from the source. -/
def finalRateLimitCooldownMs : Int := 30000

/-- FINAL_NETWORK_COOLDOWN_MS from the source. -/
def finalNetworkCooldownMs : Int := 15000

/-- The exponential term of _compute_retry_delay_ms:
exponential_ms = min(MAX_RETRY_DELAY_MS, base_delay_ms * (2**attempt))
with base_delay_ms = max(100, retry_delay_ms). -/
def retryExponentialMs (attempt : Nat) (retryDelayMs : Int) : Int :=
  min maxRetryDelayMs (max 100 retryDelayMs * 2 ^ attempt)

/-- jitter_span = max(1, int(exponential_ms * RETRY_JITTER_RATIO)) with the
ratio 0.25.  The float product exponential_ms * 0.25 is exact (the factor is
a power of two and exponential_ms is at most 120000), and int() truncates it
toward zero; since exponential_ms is nonnegative this is division by 4. -/
def retryJitterSpanMs (attempt : Nat) (retryDelayMs : Int) : Int :=
  max 1 (retryExponentialMs attempt retryDelayMs / 4)

/-- _compute_retry_delay_ms.  The value drawn by random.randint(-span, span)
is passed in explicitly as the jitter argument. -/
def computeRetryDelayMs (attempt : Nat) (retryDelayMs : Int)
    (status : Option Int) (retryAfterMs : Option Int) (jitter : Int) : Int :=
  let exponentialMs := retryExponentialMs attempt retryDelayMs
  let wait0 := max 100 (exponentialMs + jitter)
  let wait1 :=
    if status = some 429 then max wait0 5000
    else if status = some 408 ∨ status = some 425 ∨ status = some 503 then max wait0 1200
    else wait0
  let wait2 :=
    match retryAfterMs with
    | some r => max wait1 (min maxRetryDelayMs r)
    | none => wait1
  min maxRetryDelayMs wait2

/-! ## Shared rate-limit gate (_extend_shared_retry_gate) -/

/-- _extend_shared_retry_gate: a no-op when wait_ms <= 0, otherwise the
deadline becomes max(current deadline, now + wait_ms / 1000).  The deadline
and the current monotonic time are rationals measured in seconds. -/
def extendSharedRetryGate (deadline : ℚ) (now : ℚ) (waitMs : Int) : ℚ :=
  if waitMs ≤ 0 then deadline
  else max deadline (now + (waitMs : ℚ) / 1000)

/-- The deadline an extend call proposes: now + wait_ms / 1000. -/
def proposedDeadline (event : ℚ × Int) : ℚ := event.1 + (event.2 : ℚ) / 1000

/-- A sequence of extend calls applied to an initial deadline.  Each event is
a pair (monotonic time of the call, wait_ms argument); the lock in the source
serialises the calls, so a list of events is the faithful picture. -/
def runGateEvents (init : ℚ) (events : List (ℚ × Int)) : ℚ :=
  events.foldl (fun d e => extendSharedRetryGate d e.1 e.2) init

/-! ## Retry loop (_request_with_retry) -/

/-- _is_retryable_status. -/
def isRetryableStatus (status : Int) : Bool :=
  status = 408 || status = 425 || status = 429 || (500 ≤ status && 599 ≥ status)

/-- What the body of a completed response turns out to be once the loop looks
at it (status < 400, expect json): empty after strip, invalid JSON, a JSON
value that is not an object, or an object carrying the parsed errorCode
(_parse_maybe_int of the errorCode entry) and whether its success entry is
the literal True. -/
inductive BodyKind
  | emptyBody
  | invalidJson
  | nonDictJson
  | dictJson (errorCode : Option Int) (successIsTrue : Bool)
deriving DecidableEq

/-- The outcome of one _request_once call: either a response (status, decoded
text, the parsed retry-after header value, body classification) or a raised
error together with its _is_retryable_network_error classification and its
normalised message. -/
inductive AttemptOutcome
  | response (status : Int) (text : String) (retryAfterHdrMs : Option Int) (body : BodyKind)
  | raisedError (retryable : Bool) (message : String)
deriving DecidableEq

/-- The value a successful _request_with_retry returns: raw text, the empty
object for a blank body, or a decoded JSON value. -/
inductive RespValue
  | text (s : String)
  | emptyObj
  | jsonValue
deriving DecidableEq

/-- The error a failed _request_with_retry raises: HttpError (status, body
text), the invalid-JSON RuntimeError, the network RuntimeError, or the
unreachable fall-through at the end of the loop. -/
inductive ReqError
  | http (status : Int) (body : String)
  | invalidJsonFinal
  | network (message : String)
  | exhausted
deriving DecidableEq

/-- What one iteration of the retry loop does: return a value, extend the
gate by gateMs and sleep waitMs before the next attempt, or raise err after
optionally extending the gate by the given amount. -/
inductive AttemptStep
  | succeed (v : RespValue)
  | retryWait (waitMs : Int) (gateMs : Int)
  | fail (gateMs : Option Int) (err : ReqError)
deriving DecidableEq

/-- One iteration of the for-loop of _request_with_retry, translated branch
by branch from the source.  retries and attempt are the Python variables of
the same names; jitter is the random draw used by any _compute_retry_delay_ms
call of this iteration. -/
def handleAttempt (expect : String) (retries attempt : Nat) (retryDelayMs : Int)
    (jitter : Int) (outcome : AttemptOutcome) : AttemptStep :=
  match outcome with
  | .response status text retryAfterHdrMs body =>
    if 400 ≤ status then
      if retries ≤ attempt || !isRetryableStatus status then
        let gate :=
          if retries ≤ attempt && (status = 429 || status = 503) then
            some (max finalRateLimitCooldownMs
              (computeRetryDelayMs attempt retryDelayMs (some status) none jitter))
          else none
        .fail gate (.http status text)
      else
        let retryAfterMs := if status = 429 || status = 503 then retryAfterHdrMs else none
        let waitMs := computeRetryDelayMs attempt retryDelayMs (some status) retryAfterMs jitter
        .retryWait waitMs waitMs
    else if expect = "text" then .succeed (.text text)
    else
      match body with
      | .emptyBody => .succeed .emptyObj
      | .invalidJson =>
        if retries ≤ attempt then .fail none .invalidJsonFinal
        else
          let waitMs := computeRetryDelayMs attempt retryDelayMs none none jitter
          .retryWait waitMs waitMs
      | .nonDictJson => .succeed .jsonValue
      | .dictJson errorCode successIsTrue =>
        match errorCode with
        | some bodyStatus =>
          if (bodyStatus = 429 || bodyStatus = 503) && !successIsTrue then
            if retries ≤ attempt then
              .fail
                (some (max finalRateLimitCooldownMs
                  (computeRetryDelayMs attempt retryDelayMs (some bodyStatus) none jitter)))
                (.http bodyStatus text)
            else
              let waitMs :=
                computeRetryDelayMs attempt retryDelayMs (some bodyStatus) retryAfterHdrMs jitter
              .retryWait waitMs waitMs
          else .succeed .jsonValue
        | none => .succeed .jsonValue
  | .raisedError retryable message =>
    if retries ≤ attempt || !retryable then
      let gate :=
        if retryable then
          some (max finalNetworkCooldownMs
            (computeRetryDelayMs attempt retryDelayMs none none jitter))
        else none
      .fail gate (.network message)
    else
      let waitMs := computeRetryDelayMs attempt retryDelayMs none none jitter
      .retryWait waitMs waitMs

/-- The whole retry loop from a given attempt index, with explicit fuel
(the loop body runs for attempt = 0 .. retries, so retries + 1 iterations).
Returns the result together with the list of gate extensions made. -/
def requestLoopFrom (expect : String) (retries : Nat) (retryDelayMs : Int)
    (outcomes : Nat → AttemptOutcome) (jitters : Nat → Int) :
    Nat → Nat → Except ReqError RespValue × List Int
  | 0, _ => (.error .exhausted, [])
  | fuel + 1, attempt =>
    match handleAttempt expect retries attempt retryDelayMs (jitters attempt) (outcomes attempt) with
    | .succeed v => (.ok v, [])
    | .fail gate err => (.error err, gate.toList)
    | .retryWait _ gateMs =>
      let rest := requestLoopFrom expect retries retryDelayMs outcomes jitters fuel (attempt + 1)
      (rest.1, gateMs :: rest.2)

/-- _request_with_retry as a whole: run the loop from attempt 0 with fuel
retries + 1. -/
def requestWithRetry (expect : String) (retries : Nat) (retryDelayMs : Int)
    (outcomes : Nat → AttemptOutcome) (jitters : Nat → Int) :
    Except ReqError RespValue × List Int :=
  requestLoopFrom expect retries retryDelayMs outcomes jitters (retries + 1) 0

/-! ## Task model (_normalize_task, _parse_maybe_int, _task_mode) -/

/-- A normalised task as produced by _normalize_task: every string field has
been stripped, commentId has been through _parse_maybe_int, disabled through
_parse_bool. -/
structure TaskRec where
  index : Nat
  name : String
  url : String
  fileName : String
  anime : String
  episode : String
  commentId : Option Int
  format : String
  disabled : Bool
deriving DecidableEq

/-- Python truthiness of an optional integer: None and 0 are falsy. -/
def optIntTruthy (o : Option Int) : Bool :=
  match o with
  | some n => n != 0
  | none => false

/-- _task_mode: each `if task[field]:` test is Python truthiness — nonempty
for the string fields, present-and-nonzero for commentId. -/
def taskMode (task : TaskRec) : String :=
  if task.url ≠ "" then "url"
  else if optIntTruthy task.commentId then "commentId"
  else if task.fileName ≠ "" then "fileName"
  else if task.anime ≠ "" then "anime"
  else ""

/-! ## Filename sanitiser (_ensure_str, _sanitize_windows_filename) -/

/-- Whitespace for Python str.strip() / str.split() (the ASCII part; the
inputs handled by this development contain no non-ASCII whitespace). -/
def pyIsSpace (c : Char) : Bool :=
  c = ' ' || c = '\t' || c = '\n' || c = '\r' || c.toNat = 11 || c.toNat = 12

/-- Drop trailing characters matching p (Python rstrip). -/
def dropTrailing (p : Char → Bool) (l : List Char) : List Char :=
  (l.reverse.dropWhile p).reverse

/-- Drop leading and trailing characters matching p (Python strip). -/
def stripList (p : Char → Bool) (l : List Char) : List Char :=
  dropTrailing p (l.dropWhile p)

/-- _ensure_str on a string value: str(value).strip(). -/
def pyStripStr (s : String) : String := String.mk (stripList pyIsSpace s.data)

/-- Accumulating decimal-digit parse; none when a non-digit appears. -/
def parseDigitsAux (acc : Nat) : List Char → Option Nat
  | [] => some acc
  | c :: rest =>
    if '0' ≤ c && c ≤ '9' then parseDigitsAux (acc * 10 + (c.toNat - 48)) rest
    else none

/-- Python int() on an already stripped character list: an optional sign
followed by at least one decimal digit.  (Python additionally accepts
underscore digit grouping and non-ASCII digits; nothing in this development
evaluates those.) -/
def parseIntList : List Char → Option Int
  | [] => none
  | '-' :: rest =>
    if rest.isEmpty then none else (parseDigitsAux 0 rest).map (fun n => -(n : Int))
  | '+' :: rest =>
    if rest.isEmpty then none else (parseDigitsAux 0 rest).map (fun n => (n : Int))
  | l => (parseDigitsAux 0 l).map (fun n => (n : Int))

/-- _parse_maybe_int on a string-or-missing value: None for missing or empty,
else int(str(value).strip()) with None on failure. -/
def parseMaybeInt (value : Option String) : Option Int :=
  match value with
  | none => none
  | some s => if s = "" then none else parseIntList (stripList pyIsSpace s.data)

/-- Accumulator pass of Python str.split(): split on whitespace runs,
discarding empty pieces. -/
def pyWordsAux : List Char → List Char → List (List Char)
  | [], acc => if acc.isEmpty then [] else [acc.reverse]
  | c :: rest, acc =>
    if pyIsSpace c then
      if acc.isEmpty then pyWordsAux rest [] else acc.reverse :: pyWordsAux rest []
    else pyWordsAux rest (c :: acc)

/-- Python str.split() with no argument. -/
def pyWords (l : List Char) : List (List Char) := pyWordsAux l []

/-- Python " ".join(words). -/
def joinWithSpace : List (List Char) → List Char
  | [] => []
  | [w] => w
  | w :: ws => w ++ ' ' :: joinWithSpace ws

/-- Characters replaced by an underscore: the literal set <>:"/\|?* plus all
control characters below 32. -/
def invalidFilenameChar (c : Char) : Bool :=
  c = '<' || c = '>' || c = ':' || c = '"' || c = '/' || c = '\\' ||
    c = '|' || c = '?' || c = '*' || c.toNat < 32

/-- ASCII uppercase of one character.  Python str.upper() is Unicode-aware,
but the comparison it feeds is against the ASCII-only reserved device name
set, for which the ASCII mapping is the relevant behaviour. -/
def charUpperAscii (c : Char) : Char :=
  if 'a' ≤ c && c ≤ 'z' then Char.ofNat (c.toNat - 32) else c

/-- Reserved device names from the source. -/
def reservedDeviceNames : List String :=
  ["CON", "PRN", "AUX", "NUL",
   "COM1", "COM2", "COM3", "COM4", "COM5", "COM6", "COM7", "COM8", "COM9",
   "LPT1", "LPT2", "LPT3", "LPT4", "LPT5", "LPT6", "LPT7", "LPT8", "LPT9"]

/-- _sanitize_windows_filename, line by line: strip with "danmu" default,
replace invalid characters, rstrip(". ") then strip(), collapse whitespace
runs with " ".join(split()), prefix reserved device names with an
underscore, "danmu" again if empty, truncate to 120 characters. -/
def sanitizeWindowsFilename (rawName : String) : String :=
  let base0 := stripList pyIsSpace rawName.data
  let base := if base0.isEmpty then "danmu".data else base0
  let cleaned := base.map (fun c => if invalidFilenameChar c then '_' else c)
  let trimmed := stripList pyIsSpace (dropTrailing (fun c => c = '.' || c = ' ') cleaned)
  let collapsed := joinWithSpace (pyWords trimmed)
  let withReserved :=
    if reservedDeviceNames.contains (String.mk (collapsed.map charUpperAscii)) then '_' :: collapsed
    else collapsed
  let nonEmpty := if withReserved.isEmpty then "danmu".data else withReserved
  let capped := if 120 < nonEmpty.length then nonEmpty.take 120 else nonEmpty
  String.mk capped

/-! ## Resolvers (_resolve_comment_id_by_match, _resolve_comment_id_by_search_episodes) -/

/-- One element of the matches array of a match response: its episodeId,
animeTitle, episodeTitle entries (each possibly missing).  A null element of
the array is Option.none one level up. -/
structure MatchItemRec where
  episodeId : Option Int
  animeTitle : Option String
  episodeTitle : Option String
deriving DecidableEq

/-- A decoded match response: truthiness of its success and isMatched
entries, and its matches entry (none when missing or not a list). -/
structure MatchResponseRec where
  success : Bool
  isMatched : Bool
  matchesArr : Option (List (Option MatchItemRec))
deriving DecidableEq

/-- The resolution result: commentId plus optional titles. -/
structure ResolvedRec where
  commentId : Int
  animeTitle : Option String
  episodeTitle : Option String
deriving DecidableEq

/-- The error message raised for a failed filename match. -/
def matchNotFoundMsg (fileName : String) : String := "match not found: " ++ fileName

/-- The first match of a response: matches[0] when matches is a list (only
meaningful when the list is nonempty), None otherwise. -/
def firstMatchOf (resp : MatchResponseRec) : Option MatchItemRec :=
  match resp.matchesArr with
  | some (x :: _) => x
  | _ => none

/-- The tail of _resolve_comment_id_by_match once the first match has been
selected: the not-success / not-isMatched / not-match / no-episodeId check,
then the resolved record.  episodeId is subject to Python truthiness, so a
present 0 also fails the check. -/
def resolveFromFirstMatch (fileName : String) (resp : MatchResponseRec)
    (firstMatch : Option MatchItemRec) : Except String ResolvedRec :=
  match firstMatch with
  | none => .error (matchNotFoundMsg fileName)
  | some item =>
    match item.episodeId with
    | none => .error (matchNotFoundMsg fileName)
    | some eid =>
      if !resp.success || !resp.isMatched || eid == 0 then .error (matchNotFoundMsg fileName)
      else .ok ⟨eid, item.animeTitle, item.episodeTitle⟩

/-- _resolve_comment_id_by_match applied to a decoded response.  When the
matches entry is an empty list the source indexes it with [0] and raises
IndexError("list index out of range") instead of the match-not-found
RuntimeError. -/
def resolveCommentIdByMatch (fileName : String) (resp : MatchResponseRec) :
    Except String ResolvedRec :=
  match resp.matchesArr with
  | some [] => .error "list index out of range"
  | some (m :: _) => resolveFromFirstMatch fileName resp m
  | none => resolveFromFirstMatch fileName resp none

/-- One element of an episodes array of a search response. -/
structure SearchEpisodeRec where
  episodeId : Option Int
  episodeTitle : Option String
deriving DecidableEq

/-- One element of the animes array of a search response. -/
structure SearchAnimeRec where
  animeTitle : Option String
  episodes : Option (List (Option SearchEpisodeRec))
deriving DecidableEq

/-- A decoded search/episodes response. -/
structure SearchResponseRec where
  success : Bool
  animes : Option (List (Option SearchAnimeRec))
deriving DecidableEq

/-- The error message raised for a failed search: the anime plus, when the
task has an episode filter, a space and the episode. -/
def searchNotFoundMsg (anime episode : String) : String :=
  "search/episodes not found: " ++ anime ++ (if episode ≠ "" then " " ++ episode else "")

/-- The tail of _resolve_comment_id_by_search_episodes once the first anime
and first episode have been selected. -/
def finishSearch (anime episode : String) (success : Bool)
    (animeItem : Option SearchAnimeRec) (episodeItem : Option SearchEpisodeRec) :
    Except String ResolvedRec :=
  match animeItem, episodeItem with
  | some ai, some epi =>
    match epi.episodeId with
    | none => .error (searchNotFoundMsg anime episode)
    | some eid =>
      if !success || eid == 0 then .error (searchNotFoundMsg anime episode)
      else .ok ⟨eid, ai.animeTitle, epi.episodeTitle⟩
  | _, _ => .error (searchNotFoundMsg anime episode)

/-- _resolve_comment_id_by_search_episodes applied to a decoded response.
As with the match resolver, indexing an empty animes or episodes list raises
IndexError. -/
def resolveCommentIdBySearch (anime episode : String) (resp : SearchResponseRec) :
    Except String ResolvedRec :=
  match resp.animes with
  | some [] => .error "list index out of range"
  | some (animeItem :: _) =>
    (match animeItem with
     | some ai =>
       match ai.episodes with
       | some [] => .error "list index out of range"
       | some (epi :: _) => finishSearch anime episode resp.success (some ai) epi
       | none => finishSearch anime episode resp.success (some ai) none
     | none => finishSearch anime episode resp.success none none)
  | none => finishSearch anime episode resp.success none none

/-! ## Task processing control flow (_process_task) -/

/-- The control flow of _process_task up to the HTTP calls it issues: the
mode dispatch, the resolution step of fileName and anime modes, and the
final fetch.  The lookup response and the fetch result are oracles; the
returned pair counts (lookup calls, fetch calls) issued. -/
def processTaskFlow (task : TaskRec) (matchResp : MatchResponseRec)
    (searchResp : SearchResponseRec) (fetchResult : Except String Unit) :
    Except String String × Nat × Nat :=
  let mode := taskMode task
  if mode = "" then
    (.error "Task missing supported fields: url/commentId/fileName/anime", 0, 0)
  else if mode = "url" then (fetchResult.map fun _ => mode, 0, 1)
  else if mode = "commentId" then (fetchResult.map fun _ => mode, 0, 1)
  else if mode = "fileName" then
    match resolveCommentIdByMatch task.fileName matchResp with
    | .error e => (.error e, 1, 0)
    | .ok _ => (fetchResult.map fun _ => mode, 1, 1)
  else
    match resolveCommentIdBySearch task.anime task.episode searchResp with
    | .error e => (.error e, 1, 0)
    | .ok _ => (fetchResult.map fun _ => mode, 1, 1)

/-! ## Run report accumulation (run_task, run_download) -/

/-- One item of the run report: its index and whether its status entry is
"success" (true) or "failed" (false). -/
structure ItemRec where
  index : Nat
  succeeded : Bool
deriving DecidableEq

/-- The item a worker appends for a task, given which tasks process
successfully. -/
def mkItemRec (outcome : TaskRec → Bool) (t : TaskRec) : ItemRec :=
  ⟨t.index, outcome t⟩

/-- The success counter of the report: one increment per success item. -/
def successCount (items : List ItemRec) : Nat :=
  items.countP (fun i => i.succeeded)

/-- The failed counter of the report: one increment per failed item. -/
def failedCount (items : List ItemRec) : Nat :=
  items.countP (fun i => !i.succeeded)

/-- report["items"].sort(key=lambda item: item.get("index", 0)). -/
def finalizeItems (items : List ItemRec) : List ItemRec :=
  items.mergeSort (fun a b => decide (a.index ≤ b.index))

/-- The return value of run_download after the report is finalised:
130 when cancelled, else 2 when report["failed"] > 0, else 0. -/
def runExitCode (cancelled : Bool) (failed : Nat) : Nat :=
  if cancelled then 130 else if 0 < failed then 2 else 0

/-! ## Substring test used to state the error-message claims -/

/-- Whether the second list is a prefix of the first. -/
def listStartsWith : List Char → List Char → Bool
  | _, [] => true
  | [], _ :: _ => false
  | a :: as, b :: bs => a == b && listStartsWith as bs

/-- Whether the needle occurs as a contiguous sublist of the hay. -/
def listHasSub : List Char → List Char → Bool
  | [], needle => needle.isEmpty
  | c :: rest, needle => listStartsWith (c :: rest) needle || listHasSub rest needle

/-- Whether the needle occurs as a substring of the hay (Python in). -/
def strContains (hay needle : String) : Bool := listHasSub hay.data needle.data
/-! ## Claim theorems -/

/-- Claim C1: for every attempt index, base retry delay, optional status,
optional Retry-After value and jitter draw, the delay computed by
_compute_retry_delay_ms lies in [100, 120000] ms, the exponential term
equals min(120000, max(100, base_delay) * 2^attempt), status 429 forces at
least 5000 ms (408/425/503 at least 1200 ms), and a present Retry-After
value raises the result to at least min(120000, retry_after_ms). -/
theorem compute_retry_delay_bounds :
    ∀ (attempt : Nat) (retryDelayMs : Int) (status retryAfterMs : Option Int) (jitter : Int),
      100 ≤ computeRetryDelayMs attempt retryDelayMs status retryAfterMs jitter ∧
      computeRetryDelayMs attempt retryDelayMs status retryAfterMs jitter ≤ 120000 ∧
      retryExponentialMs attempt retryDelayMs = min 120000 (max 100 retryDelayMs * 2 ^ attempt) ∧
      (status = some 429 →
        5000 ≤ computeRetryDelayMs attempt retryDelayMs status retryAfterMs jitter) ∧
      ((status = some 408 ∨ status = some 425 ∨ status = some 503) →
        1200 ≤ computeRetryDelayMs attempt retryDelayMs status retryAfterMs jitter) ∧
      (∀ r : Int, retryAfterMs = some r →
        min 120000 r ≤ computeRetryDelayMs attempt retryDelayMs status retryAfterMs jitter) := by
  intro attempt retryDelayMs status retryAfterMs jitter
  have hpow : (1 : Int) ≤ 2 ^ attempt := one_le_pow₀ (by norm_num)
  have hbase : (100 : Int) ≤ max 100 retryDelayMs * 2 ^ attempt := by
    calc (100 : Int) = 100 * 1 := by ring
    _ ≤ max 100 retryDelayMs * 2 ^ attempt :=
      mul_le_mul (le_max_left _ _) hpow (by norm_num) (by omega)
  refine ⟨?_, ?_, rfl, ?_, ?_, ?_⟩
  · rcases retryAfterMs with _ | r <;>
      simp [computeRetryDelayMs, retryExponentialMs, maxRetryDelayMs] <;>
      split_ifs <;> omega
  · rcases retryAfterMs with _ | r <;>
      simp [computeRetryDelayMs, retryExponentialMs, maxRetryDelayMs] <;>
      split_ifs <;> omega
  · intro h
    subst h
    rcases retryAfterMs with _ | r <;>
      simp [computeRetryDelayMs, retryExponentialMs, maxRetryDelayMs] <;>
      omega
  · intro h
    have hne : status ≠ some 429 := by rcases h with h | h | h <;> subst h <;> decide
    rcases retryAfterMs with _ | r <;>
      simp [computeRetryDelayMs, retryExponentialMs, maxRetryDelayMs, hne, h] <;>
      omega
  · intro r hr
    subst hr
    simp [computeRetryDelayMs, retryExponentialMs, maxRetryDelayMs] <;>
      split_ifs <;> omega

/-- Witness for C1: concrete instantiations discharging each hypothesis. -/
theorem compute_retry_delay_bounds_witness :
    5000 ≤ computeRetryDelayMs 1 1500 (some 429) none 0 ∧
    1200 ≤ computeRetryDelayMs 0 1500 (some 503) none (-100) ∧
    min 120000 7000 ≤ computeRetryDelayMs 0 1500 none (some 7000) 0 :=
  ⟨(compute_retry_delay_bounds 1 1500 (some 429) none 0).2.2.2.1 rfl,
   (compute_retry_delay_bounds 0 1500 (some 503) none (-100)).2.2.2.2.1 (Or.inr (Or.inr rfl)),
   (compute_retry_delay_bounds 0 1500 none (some 7000) 0).2.2.2.2.2 7000 rfl⟩

/-- Claim C2: each extend call only moves the shared gate deadline forward,
extend(wait_ms) sets the deadline to max(current, now + wait_ms) and is a
no-op for wait_ms <= 0, and a whole sequence of extend calls ends at the
maximum of the initial deadline and all effectively proposed deadlines. -/
theorem shared_gate_monotone_max :
    (∀ (deadline now : ℚ) (waitMs : Int),
      deadline ≤ extendSharedRetryGate deadline now waitMs) ∧
    (∀ (deadline now : ℚ) (waitMs : Int), waitMs ≤ 0 →
      extendSharedRetryGate deadline now waitMs = deadline) ∧
    (∀ (deadline now : ℚ) (waitMs : Int), 0 < waitMs →
      extendSharedRetryGate deadline now waitMs = max deadline (proposedDeadline (now, waitMs))) ∧
    (∀ (init : ℚ) (events : List (ℚ × Int)),
      runGateEvents init events =
        (events.filter (fun e => decide (0 < e.2))).foldl
          (fun acc e => max acc (proposedDeadline e)) init) := by
  refine ⟨?_, ?_, ?_, ?_⟩
  · intro deadline now waitMs
    unfold extendSharedRetryGate
    split_ifs
    · exact le_refl _
    · exact le_max_left _ _
  · intro deadline now waitMs h
    unfold extendSharedRetryGate
    exact if_pos h
  · intro deadline now waitMs h
    unfold extendSharedRetryGate proposedDeadline
    exact if_neg (by omega)
  · intro init events
    induction events generalizing init with
    | nil => rfl
    | cons e rest ih =>
      by_cases h : 0 < e.2
      · have hne : ¬ e.2 ≤ 0 := by omega
        simp only [runGateEvents, List.foldl_cons, List.filter_cons, extendSharedRetryGate,
          if_neg hne, h, decide_True]
        exact ih (max init (e.1 + (e.2 : ℚ) / 1000))
      · have hle : e.2 ≤ 0 := by omega
        simp only [runGateEvents, List.foldl_cons, List.filter_cons, extendSharedRetryGate,
          if_pos hle, h, decide_False]
        exact ih init

/-- Witness for C2: concrete instantiations discharging each hypothesis. -/
theorem shared_gate_monotone_max_witness :
    extendSharedRetryGate 5 100 (-3) = 5 ∧
    extendSharedRetryGate 5 100 2000 = max 5 (proposedDeadline (100, 2000)) ∧
    (5 : ℚ) ≤ extendSharedRetryGate 5 100 2000 :=
  ⟨shared_gate_monotone_max.2.1 5 100 (-3) (by decide),
   shared_gate_monotone_max.2.2.1 5 100 2000 (by decide),
   shared_gate_monotone_max.1 5 100 2000⟩

/-- Counterexample to C3 as stated: HTTP 500 is a retryable status, yet when
retries are exhausted on it the final failure raises without extending the
shared rate-limit gate. -/
theorem retry_exhaustion_gate_counterexample :
    handleAttempt "json" 0 0 1500 0 (.response 500 "oops" none .nonDictJson) =
      .fail none (.http 500 "oops") ∧
    isRetryableStatus 500 = true := by
  constructor
  · rfl
  · rfl

/-- Amended C3: exhaustion extends the shared gate exactly for the
rate-limit class (HTTP status or JSON-body errorCode 429/503, floor
30000 ms) and for retryable network errors (floor 15000 ms); exhaustion on
retryable conditions outside these classes (retryable statuses other than
429/503, malformed JSON) raises without extending the gate, and
non-retryable conditions (non-retryable statuses, successful responses,
non-retryable raised errors) never extend the gate. -/
theorem retry_exhaustion_gate :
    (∀ (expect : String) (s : Int) (text : String) (hdr : Option Int) (body : BodyKind)
        (retries attempt : Nat) (d j : Int),
      retries ≤ attempt → (s = 429 ∨ s = 503) →
      handleAttempt expect retries attempt d j (.response s text hdr body) =
        .fail (some (max 30000 (computeRetryDelayMs attempt d (some s) none j)))
          (.http s text) ∧
      30000 ≤ max 30000 (computeRetryDelayMs attempt d (some s) none j)) ∧
    (∀ (status s : Int) (text : String) (hdr : Option Int) (retries attempt : Nat) (d j : Int),
      status < 400 → (s = 429 ∨ s = 503) → retries ≤ attempt →
      handleAttempt "json" retries attempt d j
          (.response status text hdr (.dictJson (some s) false)) =
        .fail (some (max 30000 (computeRetryDelayMs attempt d (some s) none j)))
          (.http s text)) ∧
    (∀ (expect message : String) (retries attempt : Nat) (d j : Int),
      retries ≤ attempt →
      handleAttempt expect retries attempt d j (.raisedError true message) =
        .fail (some (max 15000 (computeRetryDelayMs attempt d none none j)))
          (.network message) ∧
      15000 ≤ max 15000 (computeRetryDelayMs attempt d none none j)) ∧
    (∀ (expect : String) (s : Int) (text : String) (hdr : Option Int) (body : BodyKind)
        (retries attempt : Nat) (d j : Int),
      400 ≤ s → isRetryableStatus s = false →
      handleAttempt expect retries attempt d j (.response s text hdr body) =
        .fail none (.http s text)) ∧
    (∀ (expect message : String) (retries attempt : Nat) (d j : Int),
      handleAttempt expect retries attempt d j (.raisedError false message) =
        .fail none (.network message)) ∧
    (∀ (expect : String) (s : Int) (text : String) (hdr : Option Int) (body : BodyKind)
        (retries attempt : Nat) (d j : Int),
      retries ≤ attempt → isRetryableStatus s = true → s ≠ 429 → s ≠ 503 → 400 ≤ s →
      handleAttempt expect retries attempt d j (.response s text hdr body) =
        .fail none (.http s text)) ∧
    (∀ (status : Int) (text : String) (hdr : Option Int) (retries attempt : Nat) (d j : Int),
      status < 400 → retries ≤ attempt →
      handleAttempt "json" retries attempt d j (.response status text hdr .invalidJson) =
        .fail none .invalidJsonFinal) ∧
    (∀ (status : Int) (text : String) (hdr : Option Int) (errorCode : Option Int)
        (retries attempt : Nat) (d j : Int),
      status < 400 →
      handleAttempt "json" retries attempt d j
          (.response status text hdr (.dictJson errorCode true)) = .succeed .jsonValue) := by
  refine ⟨?_, ?_, ?_, ?_, ?_, ?_, ?_, ?_⟩
  · intro expect s text hdr body retries attempt d j hle hs
    refine ⟨?_, le_max_left _ _⟩
    rcases hs with hs | hs <;> subst hs <;>
      simp [handleAttempt, isRetryableStatus, finalRateLimitCooldownMs, hle]
  · intro status s text hdr retries attempt d j hlt hs hle
    have h400 : ¬ (400 ≤ status) := by omega
    rcases hs with hs | hs <;> subst hs <;>
      simp [handleAttempt, h400, finalRateLimitCooldownMs, hle]
  · intro expect message retries attempt d j hle
    refine ⟨?_, le_max_left _ _⟩
    simp [handleAttempt, finalNetworkCooldownMs, hle]
  · intro expect s text hdr body retries attempt d j h400 hnr
    have hs429 : s ≠ 429 := by intro h; subst h; simp [isRetryableStatus] at hnr
    have hs503 : s ≠ 503 := by intro h; subst h; simp [isRetryableStatus] at hnr
    simp [handleAttempt, h400, hnr, hs429, hs503]
  · intro expect message retries attempt d j
    simp [handleAttempt]
  · intro expect s text hdr body retries attempt d j hle hr hs429 hs503 h400
    simp [handleAttempt, h400, hle, hr, hs429, hs503]
  · intro status text hdr retries attempt d j hlt hle
    have h400 : ¬ (400 ≤ status) := by omega
    simp [handleAttempt, h400, hle]
  · intro status text hdr errorCode retries attempt d j hlt
    have h400 : ¬ (400 ≤ status) := by omega
    rcases errorCode with _ | ec <;> simp [handleAttempt, h400]

/-- Witness for the amended C3: each hypothesis discharged at a concrete
input. -/
theorem retry_exhaustion_gate_witness :
    handleAttempt "json" 2 2 1500 0 (.response 429 "b" none .nonDictJson) =
      .fail (some (max 30000 (computeRetryDelayMs 2 1500 (some 429) none 0)))
        (.http 429 "b") ∧
    handleAttempt "json" 2 2 1500 0 (.response 200 "b" none (.dictJson (some 503) false)) =
      .fail (some (max 30000 (computeRetryDelayMs 2 1500 (some 503) none 0)))
        (.http 503 "b") ∧
    handleAttempt "json" 2 2 1500 0 (.raisedError true "reset") =
      .fail (some (max 15000 (computeRetryDelayMs 2 1500 none none 0)))
        (.network "reset") ∧
    handleAttempt "json" 2 0 1500 0 (.response 404 "nf" none .nonDictJson) =
      .fail none (.http 404 "nf") ∧
    handleAttempt "json" 2 2 1500 0 (.response 500 "e" none .nonDictJson) =
      .fail none (.http 500 "e") ∧
    handleAttempt "json" 2 2 1500 0 (.response 200 "junk" none .invalidJson) =
      .fail none .invalidJsonFinal ∧
    handleAttempt "json" 2 0 1500 0 (.response 200 "ok" none (.dictJson (some 429) true)) =
      .succeed .jsonValue :=
  ⟨(retry_exhaustion_gate.1 "json" 429 "b" none .nonDictJson 2 2 1500 0 (by decide)
      (Or.inl rfl)).1,
   retry_exhaustion_gate.2.1 200 503 "b" none 2 2 1500 0 (by decide) (Or.inr rfl) (by decide),
   (retry_exhaustion_gate.2.2.1 "json" "reset" 2 2 1500 0 (by decide)).1,
   retry_exhaustion_gate.2.2.2.1 "json" 404 "nf" none .nonDictJson 2 0 1500 0 (by decide)
     (by decide),
   retry_exhaustion_gate.2.2.2.2.2.1 "json" 500 "e" none .nonDictJson 2 2 1500 0 (by decide)
     (by decide) (by decide) (by decide) (by decide),
   retry_exhaustion_gate.2.2.2.2.2.2.1 200 "junk" none 2 2 1500 0 (by decide) (by decide),
   retry_exhaustion_gate.2.2.2.2.2.2.2 200 "ok" none (some 429) 2 0 1500 0 (by decide)⟩

/-- Claim C4: a response with HTTP status < 400 whose JSON-object body has
errorCode 429 or 503 and success not true is handled exactly like the
corresponding HTTP status — the same retry/wait/gate-extension step for
every attempt — and on exhaustion it fails with a typed HTTP error carrying
that status and the body text. -/
theorem soft_rate_limit_like_status :
    ∀ (s status : Int) (text : String) (hdr : Option Int) (retries attempt : Nat) (d j : Int),
      (s = 429 ∨ s = 503) → status < 400 →
      handleAttempt "json" retries attempt d j
          (.response status text hdr (.dictJson (some s) false)) =
        handleAttempt "json" retries attempt d j (.response s text hdr (.dictJson (some s) false)) ∧
      (retries ≤ attempt →
        handleAttempt "json" retries attempt d j
            (.response status text hdr (.dictJson (some s) false)) =
          .fail (some (max 30000 (computeRetryDelayMs attempt d (some s) none j)))
            (.http s text)) := by
  intro s status text hdr retries attempt d j hs hlt
  have h400 : ¬ (400 ≤ status) := by omega
  constructor
  · by_cases hle : retries ≤ attempt
    · rcases hs with hs | hs <;> subst hs <;>
        simp [handleAttempt, h400, isRetryableStatus, finalRateLimitCooldownMs, hle]
    · rcases hs with hs | hs <;> subst hs <;>
        simp [handleAttempt, h400, isRetryableStatus, hle]
  · intro hle
    rcases hs with hs | hs <;> subst hs <;>
      simp [handleAttempt, h400, finalRateLimitCooldownMs, hle]

/-- Witness for C4: concrete soft 429 on HTTP 200, non-exhausted and
exhausted. -/
theorem soft_rate_limit_like_status_witness :
    handleAttempt "json" 2 1 1500 0 (.response 200 "body" (some 9000) (.dictJson (some 429) false)) =
      handleAttempt "json" 2 1 1500 0 (.response 429 "body" (some 9000) (.dictJson (some 429) false)) ∧
    handleAttempt "json" 2 2 1500 0 (.response 200 "body" none (.dictJson (some 429) false)) =
      .fail (some (max 30000 (computeRetryDelayMs 2 1500 (some 429) none 0)))
        (.http 429 "body") :=
  ⟨(soft_rate_limit_like_status 429 200 "body" (some 9000) 2 1 1500 0 (Or.inl rfl)
      (by decide)).1,
   (soft_rate_limit_like_status 429 200 "body" none 2 2 1500 0 (Or.inl rfl)
      (by decide)).2 (by decide)⟩

/-- Claim C5: for any set of scheduled tasks with distinct indices and any
completion order of the workers (a permutation of the per-task item
results), the final report satisfies success + failed = total, its item
list is sorted by task index, and the finalized list does not depend on
the completion order. -/
theorem run_report_invariants :
    ∀ (tasks : List TaskRec) (outcome : TaskRec → Bool) (completed : List ItemRec),
      (tasks.map TaskRec.index).Nodup →
      completed.Perm (tasks.map (mkItemRec outcome)) →
      successCount completed + failedCount completed = tasks.length ∧
      List.Pairwise (fun a b : ItemRec => a.index ≤ b.index) (finalizeItems completed) ∧
      finalizeItems completed = finalizeItems (tasks.map (mkItemRec outcome)) := by
  intro tasks outcome completed hnd hperm
  have htrans : ∀ a b c : ItemRec, decide (a.index ≤ b.index) = true →
      decide (b.index ≤ c.index) = true → decide (a.index ≤ c.index) = true := by
    intro a b c h1 h2
    simp only [decide_eq_true_eq] at *
    omega
  have htot : ∀ a b : ItemRec,
      (decide (a.index ≤ b.index) || decide (b.index ≤ a.index)) = true := by
    intro a b
    simp only [Bool.or_eq_true, decide_eq_true_eq]
    omega
  have hsorted1 : List.Pairwise (fun a b : ItemRec => a.index ≤ b.index)
      (finalizeItems completed) :=
    (List.sorted_mergeSort htrans htot completed).imp (by intro a b h; simpa using h)
  have hsorted2 : List.Pairwise (fun a b : ItemRec => a.index ≤ b.index)
      (finalizeItems (tasks.map (mkItemRec outcome))) :=
    (List.sorted_mergeSort htrans htot _).imp (by intro a b h; simpa using h)
  refine ⟨?_, hsorted1, ?_⟩
  · have hlen : completed.length = tasks.length := by
      rw [hperm.length_eq, List.length_map]
    rw [← hlen]
    unfold successCount failedCount
    rw [List.length_eq_countP_add_countP (fun i : ItemRec => i.succeeded) completed]
    congr 1
    apply List.countP_congr
    intro a _
    cases h : a.succeeded <;> simp [h]
  · have hidx : (tasks.map (mkItemRec outcome)).map ItemRec.index = tasks.map TaskRec.index := by
      rw [List.map_map]
      exact rfl
    have hpermFin : (finalizeItems completed).Perm
        (finalizeItems (tasks.map (mkItemRec outcome))) :=
      ((List.mergeSort_perm completed _).trans hperm).trans (List.mergeSort_perm _ _).symm
    have hnd1 : ((finalizeItems completed).map ItemRec.index).Nodup := by
      have hp : ((finalizeItems completed).map ItemRec.index).Perm (tasks.map TaskRec.index) := by
        rw [← hidx]
        exact ((List.mergeSort_perm completed _).trans hperm).map _
      exact hp.nodup_iff.2 hnd
    have hnd2 : ((finalizeItems (tasks.map (mkItemRec outcome))).map ItemRec.index).Nodup := by
      have hp : ((finalizeItems (tasks.map (mkItemRec outcome))).map ItemRec.index).Perm
          (tasks.map TaskRec.index) := by
        rw [← hidx]
        exact (List.mergeSort_perm _ _).map _
      exact hp.nodup_iff.2 hnd
    have hne1 : List.Pairwise (fun a b : ItemRec => a.index ≠ b.index)
        (finalizeItems completed) := by
      rw [List.Nodup, List.pairwise_map] at hnd1
      exact hnd1
    have hne2 : List.Pairwise (fun a b : ItemRec => a.index ≠ b.index)
        (finalizeItems (tasks.map (mkItemRec outcome))) := by
      rw [List.Nodup, List.pairwise_map] at hnd2
      exact hnd2
    have hlt1 : List.Pairwise (fun a b : ItemRec => a.index < b.index)
        (finalizeItems completed) :=
      (hsorted1.and hne1).imp (by intro a b h; omega)
    have hlt2 : List.Pairwise (fun a b : ItemRec => a.index < b.index)
        (finalizeItems (tasks.map (mkItemRec outcome))) :=
      (hsorted2.and hne2).imp (by intro a b h; omega)
    haveI : IsAntisymm ItemRec (fun a b => a.index < b.index) :=
      ⟨by intro a b h1 h2; omega⟩
    exact List.eq_of_perm_of_sorted hpermFin hlt1 hlt2

/-- Witness for C5: two tasks completed in reverse order. -/
theorem run_report_invariants_witness :
    successCount [⟨2, false⟩, ⟨1, true⟩] + failedCount [⟨2, false⟩, ⟨1, true⟩] = 2 ∧
    List.Pairwise (fun a b : ItemRec => a.index ≤ b.index)
      (finalizeItems [⟨2, false⟩, ⟨1, true⟩]) ∧
    finalizeItems ([⟨2, false⟩, ⟨1, true⟩] : List ItemRec) =
      finalizeItems ([⟨1, "", "u1", "", "", "", none, "", false⟩,
        ⟨2, "", "u2", "", "", "", none, "", false⟩].map
          (mkItemRec (fun t => decide (t.index = 1)))) :=
  run_report_invariants
    [⟨1, "", "u1", "", "", "", none, "", false⟩, ⟨2, "", "u2", "", "", "", none, "", false⟩]
    (fun t => decide (t.index = 1))
    [⟨2, false⟩, ⟨1, true⟩]
    (by decide)
    (by decide)

/-- Claim C6: run_download's exit status is 130 when the run was cancelled,
otherwise 2 when at least one task failed, otherwise 0. -/
theorem run_exit_code_spec :
    (∀ failed : Nat, runExitCode true failed = 130) ∧
    (∀ failed : Nat, 0 < failed → runExitCode false failed = 2) ∧
    runExitCode false 0 = 0 := by
  refine ⟨fun failed => rfl, ?_, rfl⟩
  intro failed h
  unfold runExitCode
  rw [if_neg (by simp), if_pos h]

/-- Witness for C6: concrete exit codes. -/
theorem run_exit_code_spec_witness :
    runExitCode true 1 = 130 ∧ runExitCode false 3 = 2 ∧ runExitCode false 0 = 0 :=
  ⟨run_exit_code_spec.1 1, run_exit_code_spec.2.1 3 (by decide), run_exit_code_spec.2.2⟩

/-- Claim C7: the computed mode is the first truthy field in the priority
order url > commentId > fileName > anime, a task with none of them truthy
has the empty mode, and processing such a task fails immediately with the
input-error message while issuing zero HTTP calls (so nothing is retried). -/
theorem task_mode_priority :
    (∀ t : TaskRec, taskMode t = "url" ↔ t.url ≠ "") ∧
    (∀ t : TaskRec, taskMode t = "commentId" ↔
      (t.url = "" ∧ optIntTruthy t.commentId = true)) ∧
    (∀ t : TaskRec, taskMode t = "fileName" ↔
      (t.url = "" ∧ optIntTruthy t.commentId = false ∧ t.fileName ≠ "")) ∧
    (∀ t : TaskRec, taskMode t = "anime" ↔
      (t.url = "" ∧ optIntTruthy t.commentId = false ∧ t.fileName = "" ∧ t.anime ≠ "")) ∧
    (∀ t : TaskRec, taskMode t = "" ↔
      (t.url = "" ∧ optIntTruthy t.commentId = false ∧ t.fileName = "" ∧ t.anime = "")) ∧
    (∀ (t : TaskRec) (matchResp : MatchResponseRec) (searchResp : SearchResponseRec)
        (fetchResult : Except String Unit),
      taskMode t = "" →
      processTaskFlow t matchResp searchResp fetchResult =
        (.error "Task missing supported fields: url/commentId/fileName/anime", 0, 0)) := by
  refine ⟨?_, ?_, ?_, ?_, ?_, ?_⟩
  · intro t
    unfold taskMode
    split_ifs with h1 h2 h3 h4 <;> simp_all
  · intro t
    unfold taskMode
    split_ifs with h1 h2 h3 h4 <;> simp_all
  · intro t
    unfold taskMode
    split_ifs with h1 h2 h3 h4 <;> simp_all
  · intro t
    unfold taskMode
    split_ifs with h1 h2 h3 h4 <;> simp_all
  · intro t
    unfold taskMode
    split_ifs with h1 h2 h3 h4 <;> simp_all
  · intro t matchResp searchResp fetchResult h
    unfold processTaskFlow
    rw [h]
    rfl

/-- Witness for C7: an all-empty task has no mode and fails with zero HTTP
calls. -/
theorem task_mode_priority_witness :
    processTaskFlow ⟨1, "", "", "", "", "", none, "", false⟩
        ⟨true, true, none⟩ ⟨true, none⟩ (.ok ()) =
      (.error "Task missing supported fields: url/commentId/fileName/anime", 0, 0) :=
  task_mode_priority.2.2.2.2.2 ⟨1, "", "", "", "", "", none, "", false⟩
    ⟨true, true, none⟩ ⟨true, none⟩ (.ok ()) rfl

/-- Helper: a list is a prefix of itself. -/
theorem listStartsWith_self : ∀ l : List Char, listStartsWith l l = true := by
  intro l
  induction l with
  | nil => rfl
  | cons c rest ih => simp [listStartsWith, ih]

/-- Helper: a list is a prefix of itself followed by anything. -/
theorem listStartsWith_append : ∀ n t : List Char, listStartsWith (n ++ t) n = true := by
  intro n
  induction n with
  | nil => intro t; cases t <;> rfl
  | cons c rest ih => intro t; simp [listStartsWith, ih]

/-- Helper: a prefix occurs as a sublist. -/
theorem listHasSub_of_startsWith :
    ∀ hay needle : List Char, listStartsWith hay needle = true → listHasSub hay needle = true := by
  intro hay needle h
  cases hay with
  | nil =>
    cases needle with
    | nil => rfl
    | cons b bs => exact absurd h (by simp [listStartsWith])
  | cons c rest => simp [listHasSub, h]

/-- Helper: a suffix occurs as a sublist. -/
theorem listHasSub_append : ∀ pre n : List Char, listHasSub (pre ++ n) n = true := by
  intro pre n
  induction pre with
  | nil =>
    simp only [List.nil_append]
    exact listHasSub_of_startsWith n n (listStartsWith_self n)
  | cons c rest ih => simp [listHasSub, ih]

/-- Helper: a string contains its own prefix. -/
theorem strContains_left (p rest : String) : strContains (p ++ rest) p = true := by
  unfold strContains
  rw [String.data_append]
  exact listHasSub_of_startsWith _ _ (listStartsWith_append _ _)

/-- Helper: a string contains its own suffix. -/
theorem strContains_right (pre s : String) : strContains (pre ++ s) s = true := by
  unfold strContains
  rw [String.data_append]
  exact listHasSub_append _ _

/-- Counterexample to C8 as stated: a successful, matched response whose
matches entry is an empty list has no first match, yet resolution fails
with IndexError's message, which contains neither "match not found" nor the
task's fileName, because the source indexes matches[0] before any check. -/
theorem match_empty_list_counterexample :
    resolveCommentIdByMatch "ep1.mkv" ⟨true, true, some []⟩ =
      .error "list index out of range" ∧
    strContains "list index out of range" "match not found" = false ∧
    strContains "list index out of range" "ep1.mkv" = false := by
  refine ⟨rfl, ?_, ?_⟩ <;> decide

/-- Amended C8: for a fileName-mode task, if the match response is
unsuccessful, unmatched, has a missing-or-null first match, or its first
match lacks a truthy episodeId — excluding the empty-matches-list case,
which fails with an index error instead — then resolution fails with the
"match not found" error containing the fileName, and no comment-fetch call
is attempted. -/
theorem match_not_found_on_failure :
    ∀ (fileName : String) (resp : MatchResponseRec),
      resp.matchesArr ≠ some [] →
      (resp.success = false ∨ resp.isMatched = false ∨ firstMatchOf resp = none ∨
        (∃ item, firstMatchOf resp = some item ∧
          (item.episodeId = none ∨ item.episodeId = some 0))) →
      resolveCommentIdByMatch fileName resp = .error (matchNotFoundMsg fileName) ∧
      strContains (matchNotFoundMsg fileName) "match not found" = true ∧
      strContains (matchNotFoundMsg fileName) fileName = true ∧
      (∀ (t : TaskRec) (searchResp : SearchResponseRec) (fetchResult : Except String Unit),
        taskMode t = "fileName" → t.fileName = fileName →
        processTaskFlow t resp searchResp fetchResult =
          (.error (matchNotFoundMsg fileName), 1, 0)) := by
  intro fileName resp hne hcond
  have hlit : ("match not found" ++ ": " : String) = "match not found: " := by decide
  have hsplit : matchNotFoundMsg fileName = "match not found" ++ (": " ++ fileName) := by
    unfold matchNotFoundMsg
    rw [← String.append_assoc, hlit]
  have hmain : resolveCommentIdByMatch fileName resp = .error (matchNotFoundMsg fileName) := by
    have hfirst : resolveCommentIdByMatch fileName resp =
        resolveFromFirstMatch fileName resp (firstMatchOf resp) := by
      unfold resolveCommentIdByMatch firstMatchOf
      rcases hm : resp.matchesArr with _ | l
      · rfl
      · cases l with
        | nil => exact absurd hm hne
        | cons m rest => rfl
    rw [hfirst]
    rcases hfm : firstMatchOf resp with _ | item
    · rfl
    · rcases heid : item.episodeId with _ | eid
      · simp [resolveFromFirstMatch, heid]
      · have hbool : (!resp.success || !resp.isMatched || eid == 0) = true := by
          rcases hcond with h | h | h | ⟨item2, hit, hep⟩
          · simp [h]
          · simp [h]
          · rw [hfm] at h; exact absurd h (by simp)
          · rw [hfm] at hit
            have hsame : item = item2 := by injection hit
            subst hsame
            rcases hep with hep | hep
            · rw [heid] at hep; exact absurd hep (by simp)
            · rw [heid] at hep
              have hz : eid = 0 := by injection hep
              simp [hz]
        simp [resolveFromFirstMatch, heid, hbool]
  refine ⟨hmain, ?_, ?_, ?_⟩
  · rw [hsplit]; exact strContains_left _ _
  · unfold matchNotFoundMsg; exact strContains_right _ _
  · intro t searchResp fetchResult hmode hfile
    have h0 : taskMode t ≠ "" := by rw [hmode]; decide
    have h1 : taskMode t ≠ "url" := by rw [hmode]; decide
    have h2 : taskMode t ≠ "commentId" := by rw [hmode]; decide
    unfold processTaskFlow
    rw [if_neg h0, if_neg h1, if_neg h2, if_pos hmode, hfile, hmain]

/-- Witness for the amended C8: an unmatched response for a concrete
fileName-mode task. -/
theorem match_not_found_on_failure_witness :
    resolveCommentIdByMatch "ep2.mkv" ⟨true, false, some [some ⟨some 77, none, none⟩]⟩ =
      .error (matchNotFoundMsg "ep2.mkv") ∧
    strContains (matchNotFoundMsg "ep2.mkv") "match not found" = true ∧
    strContains (matchNotFoundMsg "ep2.mkv") "ep2.mkv" = true ∧
    processTaskFlow ⟨1, "", "", "ep2.mkv", "", "", none, "", false⟩
        ⟨true, false, some [some ⟨some 77, none, none⟩]⟩ ⟨true, none⟩ (.ok ()) =
      (.error (matchNotFoundMsg "ep2.mkv"), 1, 0) := by
  have h := match_not_found_on_failure "ep2.mkv"
    ⟨true, false, some [some ⟨some 77, none, none⟩]⟩ (by decide) (Or.inr (Or.inl rfl))
  exact ⟨h.1, h.2.1, h.2.2.1,
    h.2.2.2 ⟨1, "", "", "ep2.mkv", "", "", none, "", false⟩ ⟨true, none⟩ (.ok ()) rfl rfl⟩

set_option maxRecDepth 20000 in
/-- Claim C9: the filename sanitizer satisfies the spec's examples —
sanitizing "CON" yields "_CON", sanitizing the name a/b\c yields "a_b_c",
a 200-character name comes out 120 characters long, and an empty or
whitespace-only name yields the fallback token "danmu". -/
theorem sanitize_filename_examples :
    sanitizeWindowsFilename "CON" = "_CON" ∧
    sanitizeWindowsFilename "a/b\\c" = "a_b_c" ∧
    (sanitizeWindowsFilename (String.mk (List.replicate 200 'a'))).length = 120 ∧
    sanitizeWindowsFilename "" = "danmu" ∧
    sanitizeWindowsFilename "   " = "danmu" := by
  refine ⟨?_, ?_, ?_, ?_, ?_⟩ <;> decide

/-- Claim C10: a task whose url is empty and whose commentId parsed to the
integer 0 is not commentId mode — Python truthiness makes commentId 0
indistinguishable from an absent commentId — so the mode falls through to
fileName, then anime, and is invalid when both are empty. -/
theorem comment_id_zero_falls_through :
    parseMaybeInt (some "0") = some 0 ∧
    (∀ t : TaskRec, t.commentId = some 0 →
      taskMode t = taskMode { t with commentId := none }) ∧
    (∀ t : TaskRec, t.url = "" → t.commentId = some 0 →
      taskMode t ≠ "commentId" ∧
      (t.fileName ≠ "" → taskMode t = "fileName") ∧
      (t.fileName = "" → t.anime ≠ "" → taskMode t = "anime") ∧
      (t.fileName = "" → t.anime = "" → taskMode t = "")) := by
  refine ⟨by decide, ?_, ?_⟩
  · intro t h
    unfold taskMode optIntTruthy
    rw [h]
    rfl
  · intro t hu hc
    refine ⟨?_, ?_, ?_, ?_⟩
    · unfold taskMode
      rw [hu, hc]
      simp [optIntTruthy]
      split_ifs <;> decide
    · intro hf
      unfold taskMode
      rw [hu, hc]
      simp [optIntTruthy, hf]
    · intro hf ha
      unfold taskMode
      rw [hu, hc]
      simp [optIntTruthy, hf, ha]
    · intro hf ha
      unfold taskMode
      rw [hu, hc]
      simp [optIntTruthy, hf, ha]

/-- Witness for C10: a task with commentId 0 and a fileName resolves to
fileName mode, and with nothing else set it is invalid. -/
theorem comment_id_zero_falls_through_witness :
    taskMode ⟨1, "", "", "f.mkv", "", "", some 0, "", false⟩ = "fileName" ∧
    taskMode ⟨2, "", "", "", "", "", some 0, "", false⟩ = "" ∧
    taskMode ⟨3, "", "", "", "", "", some 0, "", false⟩ =
      taskMode ⟨3, "", "", "", "", "", none, "", false⟩ :=
  ⟨(comment_id_zero_falls_through.2.2 ⟨1, "", "", "f.mkv", "", "", some 0, "", false⟩
      rfl rfl).2.1 (by decide),
   ((comment_id_zero_falls_through.2.2 ⟨2, "", "", "", "", "", some 0, "", false⟩
      rfl rfl).2.2.2 rfl rfl),
   comment_id_zero_falls_through.2.1 ⟨3, "", "", "", "", "", some 0, "", false⟩ rfl⟩
